import Mathlib

/-!
Shallow embedding of the WhatsApp-integration service (src/main.py) and
verification of its specification claims.

The embedding models:
  - the webhook signature verifier (HMAC-SHA256 over raw body bytes),
  - the message status store (a Python dict keyed by JSON values),
  - the webhook receiver endpoint (handshake and status-update processing),
  - the outbound message dispatcher,
  - the bounded request log of the logging middleware.

Python runtime behaviour (KeyError, TypeError, AttributeError, dynamic
`in`/indexing on JSON values, dict semantics) is modelled explicitly so that
caught-versus-uncaught exception claims can be settled faithfully.
Machine words use Nat with explicit reduction mod 2^32.
-/

namespace WaPoc

/-! ## SHA-256 over byte lists (bytes are Nat < 256, words are Nat < 2^32) -/

/-- Addition of two 32-bit words, reduced mod 2^32. -/
def add32 (a b : Nat) : Nat := (a + b) % 4294967296

/-- Bitwise xor of 32-bit words. -/
def xor32 (a b : Nat) : Nat := a ^^^ b

/-- Bitwise and of 32-bit words. -/
def land32 (a b : Nat) : Nat := a &&& b

/-- Bitwise complement of a 32-bit word. -/
def not32 (a : Nat) : Nat := a ^^^ 4294967295

/-- Right rotation of a 32-bit word by k bits. -/
def rotr32 (x k : Nat) : Nat := (x >>> k) ||| ((x <<< (32 - k)) % 4294967296)

/-- The 64 SHA-256 round constants (FIPS 180-4, written in decimal). -/
def K256 : List Nat :=
  [1116352408, 1899447441, 3049323471, 3921009573, 961987163,
   1508970993, 2453635748, 2870763221, 3624381080, 310598401,
   607225278, 1426881987, 1925078388, 2162078206, 2614888103,
   3248222580, 3835390401, 4022224774, 264347078, 604807628,
   770255983, 1249150122, 1555081692, 1996064986, 2554220882,
   2821834349, 2952996808, 3210313671, 3336571891, 3584528711,
   113926993, 338241895, 666307205, 773529912, 1294757372,
   1396182291, 1695183700, 1986661051, 2177026350, 2456956037,
   2730485921, 2820302411, 3259730800, 3345764771, 3516065817,
   3600352804, 4094571909, 275423344, 430227734, 506948616,
   659060556, 883997877, 958139571, 1322822218, 1537002063,
   1747873779, 1955562222, 2024104815, 2227730452, 2361852424,
   2428436474, 2756734187, 3204031479, 3329325298]

/-- The SHA-256 initial hash state (FIPS 180-4, written in decimal). -/
def H256 : List Nat :=
  [1779033703, 3144134277, 1013904242, 2773480762,
   1359893119, 2600822924, 528734635, 1541459225]

/-- Iterate a function n times (structural recursion so it reduces in the kernel). -/
def iterateN (f : α → α) : Nat → α → α
  | 0, x => x
  | n + 1, x => iterateN f n (f x)

/-- Big-endian 8-byte encoding of a bit length. -/
def lenBE (n : Nat) : List Nat :=
  [(n >>> 56) % 256, (n >>> 48) % 256, (n >>> 40) % 256, (n >>> 32) % 256,
   (n >>> 24) % 256, (n >>> 16) % 256, (n >>> 8) % 256, n % 256]

/-- SHA-256 padding: append 0x80, zeros to 56 mod 64, and the 64-bit bit length. -/
def padMessage (msg : List Nat) : List Nat :=
  let l := msg.length
  msg ++ 128 :: List.replicate ((64 + 56 - ((l + 1) % 64)) % 64) 0 ++ lenBE (l * 8)

/-- Group bytes into 64-byte blocks; the fuel argument keeps recursion structural. -/
def chunkBytes : Nat → List Nat → List (List Nat)
  | 0, _ => []
  | _ + 1, [] => []
  | fuel + 1, b :: rest => (b :: rest).take 64 :: chunkBytes fuel ((b :: rest).drop 64)

/-- Convert big-endian byte quadruples into 32-bit words. -/
def toWords : List Nat → List Nat
  | b0 :: b1 :: b2 :: b3 :: rest =>
    (((b0 * 256 + b1) * 256 + b2) * 256 + b3) :: toWords rest
  | _ => []

/-- Small sigma 0 of the SHA-256 message schedule. -/
def ssig0 (x : Nat) : Nat := xor32 (xor32 (rotr32 x 7) (rotr32 x 18)) (x >>> 3)

/-- Small sigma 1 of the SHA-256 message schedule. -/
def ssig1 (x : Nat) : Nat := xor32 (xor32 (rotr32 x 17) (rotr32 x 19)) (x >>> 10)

/-- One extension step of the message schedule, kept most-recent-first. -/
def schedStep (w : List Nat) : List Nat :=
  add32 (add32 (ssig1 (w.getD 1 0)) (w.getD 6 0))
        (add32 (ssig0 (w.getD 14 0)) (w.getD 15 0)) :: w

/-- Full 64-word message schedule of a 16-word block. -/
def schedule (block : List Nat) : List Nat :=
  (iterateN schedStep 48 block.reverse).reverse

/-- One SHA-256 compression round on the state [a,b,c,d,e,f,g,h]. -/
def compressRound (st : List Nat) (kw : Nat × Nat) : List Nat :=
  match st with
  | [a, b, c, d, e, f, g, h] =>
    let s1 := xor32 (xor32 (rotr32 e 6) (rotr32 e 11)) (rotr32 e 25)
    let ch := xor32 (land32 e f) (land32 (not32 e) g)
    let t1 := add32 (add32 (add32 h s1) (add32 ch kw.1)) kw.2
    let s0 := xor32 (xor32 (rotr32 a 2) (rotr32 a 13)) (rotr32 a 22)
    let mj := xor32 (xor32 (land32 a b) (land32 a c)) (land32 b c)
    [add32 t1 (add32 s0 mj), a, b, c, add32 d t1, e, f, g]
  | other => other

/-- Compress one 16-word block into the running hash state. -/
def compressBlock (h : List Nat) (block : List Nat) : List Nat :=
  List.zipWith add32 h (List.foldl compressRound h (K256.zip (schedule block)))

/-- Big-endian 4-byte encoding of a 32-bit word. -/
def wordBE (w : Nat) : List Nat :=
  [(w >>> 24) % 256, (w >>> 16) % 256, (w >>> 8) % 256, w % 256]

/-- SHA-256 of a byte list, as its 32-byte digest. -/
def sha256 (msg : List Nat) : List Nat :=
  let padded := padMessage msg
  ((chunkBytes padded.length padded).foldl
    (fun h b => compressBlock h (toWords b)) H256).foldr
    (fun w acc => wordBE w ++ acc) []

/-- HMAC-SHA256 with block size 64, per RFC 2104 (as Python hmac with sha256). -/
def hmac_sha256 (key msg : List Nat) : List Nat :=
  let k0 := if 64 < key.length then sha256 key else key
  let kp := k0 ++ List.replicate (64 - k0.length) 0
  sha256 ((kp.map fun b => b ^^^ 92) ++ sha256 ((kp.map fun b => b ^^^ 54) ++ msg))

/-- Lowercase hexadecimal digit: 0-9 then a-f. -/
def hexDigit (n : Nat) : Char :=
  if n < 10 then Char.ofNat (48 + n) else Char.ofNat (87 + n)

/-- Lowercase hex rendering of a byte list (Python hexdigest). -/
def bytesToHex (bs : List Nat) : String :=
  String.mk (bs.foldr (fun b acc => hexDigit (b / 16 % 16) :: hexDigit (b % 16) :: acc) [])

/-! ## Signature verifier (src/main.py, verify_webhook_signature) -/

/-- Outcome of a request handler: a returned value, a raised HTTPException,
or a Python exception escaping the handler uncaught. -/
inductive PyResult (α : Type) where
  | ok (v : α)
  | httpError (code : Nat) (detail : String)
  | uncaught (msg : String)
deriving DecidableEq, Repr

/-- Whether every character of a string is ASCII (Python str.isascii). -/
def isAsciiStr (s : String) : Bool := s.toList.all (fun c => c.toNat < 128)

/-- Python hmac.compare_digest on two str arguments: raises TypeError when
either string contains a non-ASCII character, otherwise compares for equality
(the constant-time property is a timing concern, not a functional one). -/
def compare_digest (a b : String) : Except String Bool :=
  if isAsciiStr a && isAsciiStr b then .ok (a == b)
  else .error "TypeError: comparing strings with non-ASCII characters is not supported"

/-- The expected signature string for a secret and raw body. -/
def expected_signature (secret body : List Nat) : String :=
  "sha256=" ++ bytesToHex (hmac_sha256 secret body)

/-- Embedding of verify_webhook_signature: the header is read with default "",
an empty signature skips verification, a missing secret makes the encode call
raise, otherwise the supplied string is compared against the expected one with
compare_digest (whose TypeError on a non-ASCII signature escapes uncaught). -/
def verify_webhook_signature (app_secret : Option (List Nat))
    (header : Option String) (body : List Nat) : PyResult Bool :=
  let signature := header.getD ""
  if signature = "" then .ok true
  else
    match app_secret with
    | none => .uncaught "AttributeError: NoneType has no attribute encode"
    | some secret =>
      match compare_digest signature (expected_signature secret body) with
      | .error e => .uncaught e
      | .ok true => .ok true
      | .ok false => .httpError 403 "Invalid webhook signature"

/-! ## JSON values and Python dynamic operations

Parsed request bodies are JSON values; Python operations on them (`in`,
subscripting, `.get`, iteration, `len`) are modelled with their CPython
semantics on the JSON universe, returning an exception message on the
operations Python would raise on. -/

/-- A parsed JSON value. Python None and JSON null coincide, as in json.loads. -/
inductive Json where
  | null
  | bool (b : Bool)
  | num (n : Int)
  | str (s : String)
  | arr (xs : List Json)
  | obj (kvs : List (String × Json))

mutual

/-- Structural equality of JSON values (Python == on parsed JSON). -/
def Json.beq : Json → Json → Bool
  | .null, .null => true
  | .bool x, .bool y => x == y
  | .num x, .num y => x == y
  | .str x, .str y => x == y
  | .arr xs, .arr ys => Json.beqList xs ys
  | .obj xs, .obj ys => Json.beqKVs xs ys
  | _, _ => false

/-- Elementwise equality of JSON lists. -/
def Json.beqList : List Json → List Json → Bool
  | [], [] => true
  | x :: xs, y :: ys => Json.beq x y && Json.beqList xs ys
  | _, _ => false

/-- Entrywise equality of JSON object entry lists. -/
def Json.beqKVs : List (String × Json) → List (String × Json) → Bool
  | [], [] => true
  | (k1, v1) :: xs, (k2, v2) :: ys => (k1 == k2 && Json.beq v1 v2) && Json.beqKVs xs ys
  | _, _ => false

end

instance : BEq Json := ⟨Json.beq⟩

/-- Elementwise list equality agrees with equality, given agreement on elements. -/
theorem Json.beqList_iff (xs ys : List Json)
    (ih : ∀ a ∈ xs, ∀ b, (Json.beq a b = true ↔ a = b)) :
    (Json.beqList xs ys = true ↔ xs = ys) := by
  induction xs generalizing ys with
  | nil => cases ys <;> simp [Json.beqList]
  | cons x xs ihx =>
    cases ys with
    | nil => simp [Json.beqList]
    | cons y ys =>
      have hx := ih x (by simp) y
      have hr := ihx ys (fun a ha b => ih a (List.mem_cons_of_mem x ha) b)
      simp [Json.beqList, hx, hr]

/-- Entrywise object equality agrees with equality, given agreement on values. -/
theorem Json.beqKVs_iff (xs ys : List (String × Json))
    (ih : ∀ kv ∈ xs, ∀ b, (Json.beq kv.2 b = true ↔ kv.2 = b)) :
    (Json.beqKVs xs ys = true ↔ xs = ys) := by
  induction xs generalizing ys with
  | nil => cases ys <;> simp [Json.beqKVs]
  | cons x xs ihx =>
    cases ys with
    | nil => simp [Json.beqKVs]
    | cons y ys =>
      have hx := ih x (by simp) y.2
      have hr := ihx ys (fun a ha b => ih a (List.mem_cons_of_mem x ha) b)
      cases x with
      | mk k1 v1 =>
        cases y with
        | mk k2 v2 =>
          simp only [Json.beqKVs, Bool.and_eq_true, beq_iff_eq, List.cons.injEq,
            Prod.mk.injEq] at *
          try rw [hx, hr]
          try tauto

/-- JSON boolean equality agrees with propositional equality (size-bounded form). -/
theorem Json.beq_iff_aux : ∀ n (a b : Json), sizeOf a ≤ n →
    (Json.beq a b = true ↔ a = b) := by
  intro n
  induction n with
  | zero =>
    intro a b ha
    exfalso
    cases a <;> simp at ha
  | succ n ih =>
    intro a b ha
    cases a <;> cases b <;> simp [Json.beq]
    case arr.arr xs ys =>
      refine Json.beqList_iff xs ys (fun a hm b => ih a b ?_)
      have hlt := List.sizeOf_lt_of_mem hm
      have : sizeOf (Json.arr xs) = 1 + sizeOf xs := by simp
      omega
    case obj.obj xs ys =>
      refine Json.beqKVs_iff xs ys (fun kv hm b => ih kv.2 b ?_)
      have hlt := List.sizeOf_lt_of_mem hm
      have h2 : sizeOf kv.2 < sizeOf kv := by
        obtain ⟨k, v⟩ := kv
        simp
        try omega
      have : sizeOf (Json.obj xs) = 1 + sizeOf xs := by simp
      omega

/-- JSON boolean equality coincides with propositional equality. -/
theorem Json.beq_iff (a b : Json) : (Json.beq a b = true ↔ a = b) :=
  Json.beq_iff_aux (sizeOf a) a b le_rfl

instance : DecidableEq Json :=
  fun a b => decidable_of_iff (Json.beq a b = true) (Json.beq_iff a b)

instance : LawfulBEq Json where
  eq_of_beq h := (Json.beq_iff _ _).mp h
  rfl := (Json.beq_iff _ _).mpr rfl

/-- Lookup of a key in an object's key-value list (first match, as dict). -/
def Json.lookup (j : Json) (k : String) : Option Json :=
  match j with
  | .obj kvs => (kvs.find? (fun kv => kv.1 == k)).map (·.2)
  | _ => none

/-- Whether a value is a JSON object. -/
def Json.isObj : Json → Bool
  | .obj _ => true
  | _ => false

/-- Substring test on strings, as Python `s in t`. -/
def strContains (t s : String) : Bool :=
  if s = "" then true else 2 ≤ (t.splitOn s).length

/-- Python `k in j` for a string literal k: key membership on dicts, element
membership on lists, substring on strings, TypeError otherwise. -/
def pyIn (k : String) (j : Json) : Except String Bool :=
  match j with
  | .obj kvs => .ok (kvs.any (fun kv => kv.1 == k))
  | .arr xs => .ok (xs.contains (Json.str k))
  | .str t => .ok (strContains t k)
  | _ => .error "TypeError: argument is not iterable"

/-- Python `j[k]` for a string literal k: dict lookup (KeyError when absent),
TypeError on every other value. -/
def pyGetItem (j : Json) (k : String) : Except String Json :=
  match j with
  | .obj _ =>
    match j.lookup k with
    | some v => .ok v
    | none => .error ("KeyError: " ++ k)
  | .arr _ => .error "TypeError: list indices must be integers"
  | .str _ => .error "TypeError: string indices must be integers"
  | _ => .error "TypeError: object is not subscriptable"

/-- Python `j.get(k, default)`: defined on dicts only, AttributeError otherwise. -/
def pyGet (j : Json) (k : String) (default : Json) : Except String Json :=
  match j with
  | .obj _ => .ok ((j.lookup k).getD default)
  | _ => .error "AttributeError: object has no attribute get"

/-- Python iteration `for x in j`: list elements, dict keys, string characters,
TypeError otherwise. -/
def pyIter (j : Json) : Except String (List Json) :=
  match j with
  | .arr xs => .ok xs
  | .obj kvs => .ok (kvs.map (fun kv => Json.str kv.1))
  | .str s => .ok (s.toList.map (fun c => Json.str (String.mk [c])))
  | _ => .error "TypeError: object is not iterable"

/-- Python `j[0]`: first list element (IndexError when empty), first character
of a string, KeyError on dicts (whose keys here are strings), TypeError otherwise. -/
def pyIndex0 (j : Json) : Except String Json :=
  match j with
  | .arr [] => .error "IndexError: list index out of range"
  | .arr (x :: _) => .ok x
  | .str s =>
    match s.toList with
    | [] => .error "IndexError: string index out of range"
    | c :: _ => .ok (Json.str (String.mk [c]))
  | .obj _ => .error "KeyError: 0"
  | _ => .error "TypeError: object is not subscriptable"

/-- Python `len(j)`: length of lists, strings and dicts, TypeError otherwise. -/
def pyLen (j : Json) : Except String Nat :=
  match j with
  | .arr xs => .ok xs.length
  | .str s => .ok s.length
  | .obj kvs => .ok kvs.length
  | _ => .error "TypeError: object has no len"

/-- Whether a JSON value is hashable in Python (usable as a dict key). -/
def hashableKey : Json → Bool
  | .arr _ => false
  | .obj _ => false
  | _ => true

/-! ## Status store (message_status_store in src/main.py) -/

/-- One tracked message: the record dict inserted by the dispatcher and
mutated in place by webhook status updates. -/
structure MessageRecord where
  phone_number : String
  status : Json
  details : Json
deriving DecidableEq

/-- The status store: an insertion-ordered dict from tracking id to record.
Keys are the JSON values the dispatcher extracted from provider responses. -/
abbrev Store := List (Json × MessageRecord)

/-- Dict lookup in the store. -/
def storeLookup (store : Store) (k : Json) : Option MessageRecord :=
  (store.find? (fun kv => kv.1 == k)).map (·.2)

/-- The store's keys in insertion order. -/
def storeKeys (store : Store) : List Json :=
  store.map (·.1)

/-- Dict assignment store[k] = v: overwrite in place when present, append
otherwise (Python dicts keep insertion order and unique keys). -/
def storeSet : Store → Json → MessageRecord → Store
  | [], k, v => [(k, v)]
  | kv :: rest, k, v =>
    if kv.1 = k then (k, v) :: rest else kv :: storeSet rest k v

/-- Python `k in store` on the dict: TypeError on unhashable keys. -/
def storeContains (store : Store) (k : Json) : Except String Bool :=
  if hashableKey k then .ok (storeLookup store k).isSome
  else .error "TypeError: unhashable type"

/-! ## Webhook status-update processing (process_message_status_updates) -/

/-- The per-status loop body of process_message_status_updates: for each status
object take status.get("id"), and when that id is a key of the store overwrite
the record's status with status.get("status") and its details with the whole
status object. An exception stops the loop, keeping mutations made so far. -/
def processStatuses : List Json → Store → Store × Option String
  | [], store => (store, none)
  | s :: rest, store =>
    match pyGet s "id" Json.null with
    | .error e => (store, some e)
    | .ok mid =>
      match storeContains store mid with
      | .error e => (store, some e)
      | .ok false => processStatuses rest store
      | .ok true =>
        match pyGet s "status" Json.null, storeLookup store mid with
        | .error e, _ => (store, some e)
        | .ok _, none => processStatuses rest store
        | .ok newStatus, some r =>
          processStatuses rest
            (storeSet store mid { r with status := newStatus, details := s })

/-- Embedding of process_message_status_updates: when "statuses" is in the
data, iterate data["statuses"] through the per-status loop. The returned
store reflects mutations made before any exception. -/
def process_message_status_updates (data : Json) (store : Store) :
    Store × Option String :=
  match pyIn "statuses" data with
  | .error e => (store, some e)
  | .ok false => (store, none)
  | .ok true =>
    match pyGetItem data "statuses" with
    | .error e => (store, some e)
    | .ok sts =>
      match pyIter sts with
      | .error e => (store, some e)
      | .ok list => processStatuses list store

/-! ## Webhook receiver endpoint (whatsapp_webhook) -/

/-- The inner loop over a change list: for each change whose "field" is
"messages", process change.get("value", {}). -/
def processChanges : List Json → Store → Store × Option String
  | [], store => (store, none)
  | change :: rest, store =>
    match pyGet change "field" Json.null with
    | .error e => (store, some e)
    | .ok f =>
      if f = Json.str "messages" then
        match pyGet change "value" (Json.obj []) with
        | .error e => (store, some e)
        | .ok v =>
          match process_message_status_updates v store with
          | (store1, some e) => (store1, some e)
          | (store1, none) => processChanges rest store1
      else processChanges rest store

/-- The loop over body["entry"]: for each entry iterate entry.get("changes", []). -/
def processEntries : List Json → Store → Store × Option String
  | [], store => (store, none)
  | entry :: rest, store =>
    match pyGet entry "changes" (Json.arr []) with
    | .error e => (store, some e)
    | .ok chs =>
      match pyIter chs with
      | .error e => (store, some e)
      | .ok cs =>
        match processChanges cs store with
        | (store1, some e) => (store1, some e)
        | (store1, none) => processEntries rest store1

/-- The try-block of the endpoint: if "entry" is in the body, walk the
entries; any exception is returned for the except-clause to convert. -/
def webhookTryBlock (body : Json) (store : Store) : Store × Option String :=
  match pyIn "entry" body with
  | .error e => (store, some e)
  | .ok false => (store, none)
  | .ok true =>
    match pyGetItem body "entry" with
    | .error e => (store, some e)
    | .ok entries =>
      match pyIter entries with
      | .error e => (store, some e)
      | .ok es => processEntries es store

/-- The status-update section of the endpoint: run the try-block, return
{"status": "received"} on success and a 500 "Failed to process webhook"
HTTPException when the try-block raised. -/
def webhookStatusSection (body : Json) (store : Store) : PyResult Json × Store :=
  match webhookTryBlock body store with
  | (store1, none) => (.ok (Json.obj [("status", Json.str "received")]), store1)
  | (store1, some e) => (.httpError 500 ("Failed to process webhook: " ++ e), store1)

/-- Embedding of the whatsapp_webhook endpoint after signature verification:
parse the body (none models malformed JSON, whose exception is raised outside
any try), handle the hub.mode = "subscribe" handshake outside the try
(KeyError on missing handshake fields escapes uncaught), and otherwise run
the guarded status-update section. -/
def whatsapp_webhook (parsed : Option Json) (verifyToken : String)
    (store : Store) : PyResult Json × Store :=
  match parsed with
  | none => (.uncaught "JSONDecodeError: Expecting value", store)
  | some body =>
    match pyIn "hub.mode" body with
    | .error e => (.uncaught e, store)
    | .ok hasMode =>
      if hasMode then
        match pyGetItem body "hub.mode" with
        | .error e => (.uncaught e, store)
        | .ok mode =>
          if mode = Json.str "subscribe" then
            match pyGetItem body "hub.verify_token" with
            | .error e => (.uncaught e, store)
            | .ok vt =>
              if vt = Json.str verifyToken then
                match pyGetItem body "hub.challenge" with
                | .error e => (.uncaught e, store)
                | .ok c => (.ok (Json.obj [("hub.challenge", c)]), store)
              else (.httpError 403 "Verification token mismatch", store)
          else webhookStatusSection body store
      else webhookStatusSection body store

/-! ## Message dispatcher (send_whatsapp_message) -/

/-- A provider HTTP response: status code, raw text, and the result of
parsing the text as JSON (error when response.json() would raise). -/
structure ProviderResponse where
  status : Nat
  text : String
  body : Except String Json

/-- Whether httpx raise_for_status passes: only 2xx responses succeed. -/
def is2xx (status : Nat) : Bool := 200 ≤ status && status < 300

/-- Extraction of the tracking id from a parsed provider response, modelling
the guarded access result["messages"][0]["id"]: none when the guard
`"messages" in result and len(result["messages"]) > 0` is false, an
exception when a step raises. -/
def extract_message_id (result : Json) : Except String (Option Json) :=
  match pyIn "messages" result with
  | .error e => .error e
  | .ok false => .ok none
  | .ok true =>
    match pyGetItem result "messages" with
    | .error e => .error e
    | .ok msgs =>
      match pyLen msgs with
      | .error e => .error e
      | .ok 0 => .ok none
      | .ok (_ + 1) =>
        match pyIndex0 msgs with
        | .error e => .error e
        | .ok m0 =>
          match pyGetItem m0 "id" with
          | .error e => .error e
          | .ok mid => .ok (some mid)

/-- The response dict returned on a successful dispatch. -/
def sendSuccessResponse (result : Json) : Json :=
  Json.obj [("status", Json.str "message_sent"),
            ("api_response", result),
            ("note", Json.str "This only confirms the API accepted your request. Check webhook for delivery status.")]

/-- Embedding of send_whatsapp_message after the outbound POST: the argument
is the provider's response (error when the request itself raised, e.g. a
network failure). A non-2xx response becomes an HTTPException carrying the
provider's status code and text; any other exception inside the try becomes
a 500; a 2xx response whose body yields a tracking id registers a new record
with status "sent" before returning. -/
def send_whatsapp_message (phone_number : String)
    (resp : Except String ProviderResponse) (store : Store) :
    PyResult Json × Store :=
  match resp with
  | .error e =>
    (.httpError 500 ("Failed to send WhatsApp message: " ++ e), store)
  | .ok r =>
    if is2xx r.status then
      match r.body with
      | .error e =>
        (.httpError 500 ("Failed to send WhatsApp message: " ++ e), store)
      | .ok result =>
        match extract_message_id result with
        | .error e =>
          (.httpError 500 ("Failed to send WhatsApp message: " ++ e), store)
        | .ok none => (.ok (sendSuccessResponse result), store)
        | .ok (some mid) =>
          if hashableKey mid then
            (.ok (sendSuccessResponse result),
             storeSet store mid
               { phone_number := phone_number, status := Json.str "sent",
                 details := Json.obj [] })
          else
            (.httpError 500 "Failed to send WhatsApp message: unhashable type",
             store)
    else
      (.httpError r.status ("WhatsApp API error: " ++ r.text), store)

/-! ## Status query endpoints -/

/-- Embedding of get_message_status: the stored record, or a 404. -/
def get_message_status (message_id : String) (store : Store) :
    PyResult MessageRecord :=
  match storeLookup store (Json.str message_id) with
  | some r => .ok r
  | none => .httpError 404 "Message ID not found"

/-! ## System events: reachable states of the status store -/

/-- One store-touching request: an outbound dispatch (with the provider's
response as observed input) or an inbound webhook delivery. -/
inductive Event where
  | dispatch (phone_number : String) (resp : Except String ProviderResponse)
  | webhook (parsed : Option Json) (verifyToken : String)

/-- The store after handling one event. -/
def stepStore (store : Store) (ev : Event) : Store :=
  match ev with
  | .dispatch phone resp => (send_whatsapp_message phone resp store).2
  | .webhook parsed tok => (whatsapp_webhook parsed tok store).2

/-- The store reached by handling a sequence of events from startup. -/
def runEvents (evs : List Event) : Store :=
  evs.foldl stepStore []

/-- The tracking id a dispatch event successfully registers, when any. -/
def dispatchedId (resp : Except String ProviderResponse) : Option Json :=
  match resp with
  | .error _ => none
  | .ok r =>
    if is2xx r.status then
      match r.body with
      | .error _ => none
      | .ok result =>
        match extract_message_id result with
        | .ok (some mid) => if hashableKey mid then some mid else none
        | _ => none
    else none

/-- All tracking ids registered by successful dispatches in an event list. -/
def dispatchIds : List Event → List Json
  | [] => []
  | .dispatch _ resp :: rest =>
    match dispatchedId resp with
    | some mid => mid :: dispatchIds rest
    | none => dispatchIds rest
  | .webhook _ _ :: rest => dispatchIds rest

/-! ## Request log (log_requests middleware, recent_requests) -/

/-- Capacity of the request log. -/
def MAX_STORED_REQUESTS : Nat := 100

/-- Embedding of the log-append step of the log_requests middleware:
recent_requests.append(entry) followed by pop(0) when the length
exceeds MAX_STORED_REQUESTS. -/
def log_requests_append (l : List α) (entry : α) : List α :=
  let grown := l ++ [entry]
  if MAX_STORED_REQUESTS < grown.length then grown.tail else grown

/-! ## Theorems -/

/-- Helper: the expected signature string is never empty. -/
theorem expected_signature_ne_empty (secret body : List Nat) :
    expected_signature secret body ≠ "" := by
  intro hc
  have hl := congrArg String.length hc
  rw [expected_signature, String.length_append] at hl
  simp at hl
  exact absurd hl.1 (by decide)

/-- Helper: hexadecimal digits are ASCII characters. -/
theorem hexDigit_ascii : ∀ m, m < 16 → (hexDigit m).toNat < 128 := by decide

/-- Helper: the hex rendering of any byte list is pure ASCII. -/
theorem bytesToHex_ascii (bs : List Nat) : isAsciiStr (bytesToHex bs) = true := by
  simp only [isAsciiStr, bytesToHex]
  show List.all (bs.foldr _ []) _ = true
  induction bs with
  | nil => rfl
  | cons b rest ih =>
    simp only [List.foldr_cons, List.all_cons, ih, Bool.and_true]
    have h1 := hexDigit_ascii (b / 16 % 16) (Nat.mod_lt _ (by norm_num))
    have h2 := hexDigit_ascii (b % 16) (Nat.mod_lt _ (by norm_num))
    simp [h1, h2]

/-- Helper: the expected signature string is pure ASCII. -/
theorem expected_signature_ascii (secret body : List Nat) :
    isAsciiStr (expected_signature secret body) = true := by
  have hb := bytesToHex_ascii (hmac_sha256 secret body)
  simp only [isAsciiStr, expected_signature, String.toList] at hb ⊢
  rw [String.data_append, List.all_append, hb]
  simp

/-- C1 (amended): with a configured secret, verification succeeds exactly on
the signature "sha256=" ++ hex(HMAC-SHA256(secret, body)); every other
non-empty ASCII supplied signature is rejected with the 403 invalid-signature
error; a non-empty signature containing a non-ASCII character instead makes
hmac.compare_digest raise a TypeError that escapes the verifier uncaught. -/
theorem C1_signature_verification (secret body : List Nat) (sig : String) :
    (sig = expected_signature secret body →
      verify_webhook_signature (some secret) (some sig) body = .ok true) ∧
    (sig ≠ "" → isAsciiStr sig = true → sig ≠ expected_signature secret body →
      verify_webhook_signature (some secret) (some sig) body =
        .httpError 403 "Invalid webhook signature") ∧
    (sig ≠ "" → isAsciiStr sig = false →
      verify_webhook_signature (some secret) (some sig) body =
        .uncaught "TypeError: comparing strings with non-ASCII characters is not supported") := by
  refine ⟨?_, ?_, ?_⟩
  · intro h
    subst h
    simp [verify_webhook_signature, compare_digest,
      expected_signature_ne_empty secret body,
      expected_signature_ascii secret body]
  · intro h1 hascii h2
    have hbeq : (sig == expected_signature secret body) = false :=
      beq_eq_false_iff_ne.mpr h2
    simp [verify_webhook_signature, compare_digest, h1, hascii,
      expected_signature_ascii secret body, hbeq]
  · intro h1 hascii
    simp [verify_webhook_signature, compare_digest, h1, hascii]

/-- C1 counterexample: the non-empty, non-matching signature "é" (reachable,
since header bytes are decoded latin-1) is not rejected with the 403
invalid-signature error; compare_digest raises a TypeError that escapes the
verifier uncaught. -/
theorem C1_nonascii_counterexample :
    (("é" : String) ≠ "" ∧ "é" ≠ expected_signature [1, 2] [3]) ∧
    verify_webhook_signature (some [1, 2]) (some "é") [3] =
      .uncaught "TypeError: comparing strings with non-ASCII characters is not supported" :=
  ⟨⟨by decide, by decide⟩, rfl⟩

/-- Witness for C1 at a concrete secret and body with a matching signature, a
non-matching ASCII signature, and a non-ASCII signature. -/
theorem C1_signature_verification_witness :
    verify_webhook_signature (some [1, 2]) (some (expected_signature [1, 2] [3])) [3] =
      .ok true ∧
    ("bogus" ≠ "" ∧ isAsciiStr "bogus" = true ∧
      "bogus" ≠ expected_signature [1, 2] [3]) ∧
    verify_webhook_signature (some [1, 2]) (some "bogus") [3] =
      .httpError 403 "Invalid webhook signature" ∧
    (("ø" : String) ≠ "" ∧ isAsciiStr "ø" = false) ∧
    verify_webhook_signature (some [1, 2]) (some "ø") [3] =
      .uncaught "TypeError: comparing strings with non-ASCII characters is not supported" :=
  ⟨(C1_signature_verification [1, 2] [3] _).1 rfl,
   ⟨by decide, by decide, by decide⟩,
   (C1_signature_verification [1, 2] [3] "bogus").2.1 (by decide) (by decide) (by decide),
   ⟨by decide, by decide⟩,
   (C1_signature_verification [1, 2] [3] "ø").2.2 (by decide) (by decide)⟩

/-- C5: an absent or empty signature header makes verification succeed
unconditionally, for every body and whether or not a secret is configured. -/
theorem C5_permissive_fallback (app_secret : Option (List Nat))
    (header : Option String) (body : List Nat)
    (h : header = none ∨ header = some "") :
    verify_webhook_signature app_secret header body = .ok true := by
  rcases h with h | h <;> subst h <;> simp [verify_webhook_signature]

/-- Witness for C5: absent header with no secret, empty header with a secret. -/
theorem C5_permissive_fallback_witness :
    verify_webhook_signature none none [1] = .ok true ∧
    verify_webhook_signature (some [5]) (some "") [2] = .ok true :=
  ⟨C5_permissive_fallback none none [1] (Or.inl rfl),
   C5_permissive_fallback (some [5]) (some "") [2] (Or.inr rfl)⟩

/-- Helper: while the log stays within capacity, appends accumulate in order. -/
theorem log_append_foldl_small (l es : List α)
    (h : l.length + es.length ≤ MAX_STORED_REQUESTS) :
    List.foldl log_requests_append l es = l ++ es := by
  induction es generalizing l with
  | nil => simp
  | cons e es ih =>
    have hstep : log_requests_append l e = l ++ [e] := by
      simp only [log_requests_append, List.length_append, List.length_singleton]
      rw [if_neg]
      simp only [List.length_cons] at h
      omega
    have ih2 := ih (l ++ [e]) (by
      simp only [List.length_append, List.length_singleton, List.length_nil,
        List.length_cons] at h ⊢
      omega)
    rw [List.foldl_cons, hstep, ih2]
    simp

/-- C3: appending 101 entries to an empty request log leaves exactly the 100
most recent in order (the first-appended entry evicted), and an append from
any within-capacity log stays within the capacity of 100. -/
theorem C3_request_log_bound (es l : List α) (e : α) :
    (es.length = 101 → List.foldl log_requests_append [] es = es.tail) ∧
    (l.length ≤ MAX_STORED_REQUESTS →
      (log_requests_append l e).length ≤ MAX_STORED_REQUESTS) := by
  constructor
  · intro h
    rcases List.eq_nil_or_concat es with rfl | ⟨init, last, rfl⟩
    · simp at h
    · simp only [List.concat_eq_append] at h ⊢
      rw [List.foldl_append]
      have hlen : init.length = 100 := by
        simp only [List.length_append, List.length_singleton] at h
        omega
      rw [log_append_foldl_small [] init (by simp [hlen, MAX_STORED_REQUESTS])]
      simp only [List.nil_append, List.foldl_cons, List.foldl_nil]
      simp only [log_requests_append]
      rw [if_pos (by simp [hlen, MAX_STORED_REQUESTS])]
  · intro h
    simp only [log_requests_append]
    split
    · simp only [List.length_tail, List.length_append, List.length_singleton]
      omega
    · rename_i hc
      simp only [List.length_append, List.length_singleton] at hc ⊢
      omega

/-- Witness for C3 at a 101-entry append sequence and a full log. -/
theorem C3_request_log_bound_witness :
    List.foldl log_requests_append ([] : List Nat) (List.range 101) =
      (List.range 101).tail ∧
    (log_requests_append (List.range 100) 7).length ≤ MAX_STORED_REQUESTS :=
  ⟨(C3_request_log_bound (List.range 101) [] 0).1 (by simp),
   (C3_request_log_bound ([] : List Nat) (List.range 100) 7).2 (by decide)⟩

/-- Helper: assignment makes the assigned key map to the assigned record. -/
theorem storeLookup_set_self (store : Store) (k : Json) (v : MessageRecord) :
    storeLookup (storeSet store k v) k = some v := by
  induction store with
  | nil => simp [storeSet, storeLookup]
  | cons hd tl ih =>
    by_cases h1 : hd.1 = k
    · simp [storeSet, h1, storeLookup]
    · simp only [storeSet, if_neg h1]
      simp only [storeLookup, List.find?_cons]
      have : (hd.1 == k) = false := by simp [h1]
      rw [this]
      exact ih

/-- Helper: assignment leaves every other key's binding unchanged. -/
theorem storeLookup_set_other (store : Store) (k k2 : Json) (v : MessageRecord)
    (hne : k2 ≠ k) : storeLookup (storeSet store k v) k2 = storeLookup store k2 := by
  have hk : (k == k2) = false := beq_eq_false_iff_ne.mpr (Ne.symm hne)
  induction store with
  | nil => simp [storeSet, storeLookup, hk]
  | cons hd tl ih =>
    by_cases h1 : hd.1 = k
    · have hh : (hd.1 == k2) = false := by rw [h1]; exact hk
      simp [storeSet, if_pos h1, storeLookup, hk, hh]
    · simp only [storeSet, if_neg h1, storeLookup, List.find?_cons]
      cases hcase : (hd.1 == k2)
      · exact ih
      · rfl

/-- Helper: assignment to a present key preserves the key list. -/
theorem storeKeys_set_of_mem (store : Store) (k : Json) (v : MessageRecord)
    (h : (storeLookup store k).isSome = true) :
    storeKeys (storeSet store k v) = storeKeys store := by
  induction store with
  | nil => simp [storeLookup] at h
  | cons hd tl ih =>
    by_cases h1 : hd.1 = k
    · simp [storeSet, h1, storeKeys]
    · have hne : (hd.1 == k) = false := beq_eq_false_iff_ne.mpr h1
      have h2 : (storeLookup tl k).isSome = true := by
        simpa [storeLookup, List.find?_cons, hne] using h
      simp only [storeSet, if_neg h1, storeKeys, List.map_cons]
      have := ih h2
      simp only [storeKeys] at this
      rw [this]

/-- Helper: assignment adds at most the assigned key to the key list. -/
theorem storeKeys_set_subset (store : Store) (k k2 : Json) (v : MessageRecord)
    (h : k2 ∈ storeKeys (storeSet store k v)) :
    k2 = k ∨ k2 ∈ storeKeys store := by
  induction store with
  | nil =>
    simp [storeSet, storeKeys] at h
    exact Or.inl h
  | cons hd tl ih =>
    by_cases h1 : hd.1 = k
    · simp only [storeSet, if_pos h1, storeKeys, List.map_cons, List.mem_cons] at h ⊢
      tauto
    · simp only [storeSet, if_neg h1, storeKeys, List.map_cons, List.mem_cons] at h ⊢
      rcases h with h | h
      · tauto
      · rcases ih (by simpa [storeKeys] using h) with h2 | h2
        · exact Or.inl h2
        · simp only [storeKeys] at h2
          tauto

/-- Helper: a successful object lookup makes the Python key-membership test true. -/
theorem lookup_some_any {kvs : List (String × Json)} {k : String} {v : Json}
    (h : (Json.obj kvs).lookup k = some v) :
    kvs.any (fun kv => kv.1 == k) = true := by
  simp only [Json.lookup, Option.map_eq_some'] at h
  obtain ⟨kv, hfind, _⟩ := h
  have hmem := List.mem_of_find?_eq_some hfind
  have hp := List.find?_some hfind
  exact List.any_eq_true.mpr ⟨kv, hmem, hp⟩

/-- C6: on a handshake body (hub.mode = "subscribe"), a matching supplied
verify token echoes exactly the supplied challenge and a differing supplied
token is rejected 403, in both cases leaving the status store unchanged. -/
theorem C6_handshake (kvs : List (String × Json)) (tok : String) (store : Store)
    (hmode : (Json.obj kvs).lookup "hub.mode" = some (Json.str "subscribe")) :
    (∀ c, (Json.obj kvs).lookup "hub.verify_token" = some (Json.str tok) →
      (Json.obj kvs).lookup "hub.challenge" = some c →
      whatsapp_webhook (some (Json.obj kvs)) tok store =
        (.ok (Json.obj [("hub.challenge", c)]), store)) ∧
    (∀ vt, (Json.obj kvs).lookup "hub.verify_token" = some vt →
      vt ≠ Json.str tok →
      whatsapp_webhook (some (Json.obj kvs)) tok store =
        (.httpError 403 "Verification token mismatch", store)) := by
  constructor
  · intro c hvt hch
    simp [whatsapp_webhook, pyIn, lookup_some_any hmode, pyGetItem, hmode,
      hvt, hch]
  · intro vt hvt hne
    simp [whatsapp_webhook, pyIn, lookup_some_any hmode, pyGetItem, hmode,
      hvt, hne]

/-- Witness for C6 at a concrete handshake body with matching and differing
tokens. -/
theorem C6_handshake_witness :
    whatsapp_webhook
      (some (Json.obj [("hub.mode", Json.str "subscribe"),
                       ("hub.verify_token", Json.str "T"),
                       ("hub.challenge", Json.str "C")])) "T" [] =
      (.ok (Json.obj [("hub.challenge", Json.str "C")]), []) ∧
    whatsapp_webhook
      (some (Json.obj [("hub.mode", Json.str "subscribe"),
                       ("hub.verify_token", Json.str "X"),
                       ("hub.challenge", Json.str "C")])) "T" [] =
      (.httpError 403 "Verification token mismatch", []) :=
  ⟨(C6_handshake [("hub.mode", Json.str "subscribe"),
      ("hub.verify_token", Json.str "T"), ("hub.challenge", Json.str "C")]
      "T" [] rfl).1 (Json.str "C") rfl rfl,
   (C6_handshake [("hub.mode", Json.str "subscribe"),
      ("hub.verify_token", Json.str "X"), ("hub.challenge", Json.str "C")]
      "T" [] rfl).2 (Json.str "X") rfl (by decide)⟩

/-- Helper: status objects whose ids are hashable and absent from the store
are all skipped, leaving the store untouched and raising nothing. -/
theorem processStatuses_skip (objs : List (List (String × Json))) (store : Store)
    (h : ∀ kvs ∈ objs,
      hashableKey (((Json.obj kvs).lookup "id").getD Json.null) = true ∧
      storeLookup store (((Json.obj kvs).lookup "id").getD Json.null) = none) :
    processStatuses (objs.map Json.obj) store = (store, none) := by
  induction objs with
  | nil => simp [processStatuses]
  | cons kvs rest ih =>
    obtain ⟨hh, hl⟩ := h kvs (by simp)
    simp only [List.map_cons, processStatuses, pyGet, storeContains, hh,
      if_pos, hl, Option.isSome_none]
    exact ih (fun kvs2 hm => h kvs2 (List.mem_cons_of_mem _ hm))

/-- C7: a webhook status list whose every entry's message id is not a key of
the status store is processed without error and leaves the whole store
unchanged. -/
theorem C7_unknown_id_noop (objs : List (List (String × Json))) (store : Store)
    (h : ∀ kvs ∈ objs,
      hashableKey (((Json.obj kvs).lookup "id").getD Json.null) = true ∧
      storeLookup store (((Json.obj kvs).lookup "id").getD Json.null) = none) :
    process_message_status_updates
      (Json.obj [("statuses", Json.arr (objs.map Json.obj))]) store =
    (store, none) := by
  simp only [process_message_status_updates, pyIn, pyGetItem, pyIter,
    Json.lookup, List.any_cons, List.any_nil, List.find?_cons]
  simp only [show (("statuses" : String) == "statuses") = true from rfl,
    Bool.true_or, Option.map_some]
  exact processStatuses_skip objs store h

/-- Witness for C7 at a concrete unknown-id status update over a nonempty store. -/
theorem C7_unknown_id_noop_witness :
    process_message_status_updates
      (Json.obj [("statuses",
        Json.arr ([[("id", Json.str "zzz"), ("status", Json.str "read")]].map Json.obj))])
      [(Json.str "a", ⟨"p", Json.str "sent", Json.obj []⟩)] =
    ([(Json.str "a", ⟨"p", Json.str "sent", Json.obj []⟩)], none) :=
  C7_unknown_id_noop [[("id", Json.str "zzz"), ("status", Json.str "read")]]
    [(Json.str "a", ⟨"p", Json.str "sent", Json.obj []⟩)] (by decide)

/-- C10: a status update matching a stored id but lacking a "status" field
overwrites the record's status with null and its details with the status
object, so the subsequent status query returns status null. -/
theorem C10_missing_status_field (id : String) (kvs : List (String × Json))
    (store : Store) (r : MessageRecord)
    (hid : (Json.obj kvs).lookup "id" = some (Json.str id))
    (hstat : (Json.obj kvs).lookup "status" = none)
    (hstore : storeLookup store (Json.str id) = some r) :
    process_message_status_updates
        (Json.obj [("statuses", Json.arr [Json.obj kvs])]) store =
      (storeSet store (Json.str id)
        ⟨r.phone_number, Json.null, Json.obj kvs⟩, none) ∧
    get_message_status id
        (process_message_status_updates
          (Json.obj [("statuses", Json.arr [Json.obj kvs])]) store).1 =
      .ok ⟨r.phone_number, Json.null, Json.obj kvs⟩ := by
  have h1 : process_message_status_updates
      (Json.obj [("statuses", Json.arr [Json.obj kvs])]) store =
      (storeSet store (Json.str id)
        ⟨r.phone_number, Json.null, Json.obj kvs⟩, none) := by
    simp only [process_message_status_updates, pyIn, pyGetItem, pyIter,
      Json.lookup, List.any_cons, List.any_nil, List.find?_cons]
    simp only [show (("statuses" : String) == "statuses") = true from rfl,
      Bool.true_or, Option.map_some]
    simp [processStatuses, pyGet, hid, storeContains, hashableKey, hstore,
      hstat]
  refine ⟨h1, ?_⟩
  rw [h1]
  simp [get_message_status, storeLookup_set_self]

/-- Witness for C10 at a concrete store and a status object with only an id. -/
theorem C10_missing_status_field_witness :
    process_message_status_updates
        (Json.obj [("statuses", Json.arr [Json.obj [("id", Json.str "m1")]])])
        [(Json.str "m1", ⟨"p", Json.str "sent", Json.obj []⟩)] =
      (storeSet [(Json.str "m1", ⟨"p", Json.str "sent", Json.obj []⟩)]
        (Json.str "m1") ⟨"p", Json.null, Json.obj [("id", Json.str "m1")]⟩,
       none) ∧
    get_message_status "m1"
        (process_message_status_updates
          (Json.obj [("statuses", Json.arr [Json.obj [("id", Json.str "m1")]])])
          [(Json.str "m1", ⟨"p", Json.str "sent", Json.obj []⟩)]).1 =
      .ok ⟨"p", Json.null, Json.obj [("id", Json.str "m1")]⟩ :=
  C10_missing_status_field "m1" [("id", Json.str "m1")]
    [(Json.str "m1", ⟨"p", Json.str "sent", Json.obj []⟩)]
    ⟨"p", Json.str "sent", Json.obj []⟩ rfl rfl rfl

/-- C4: a successful dispatch for a fresh tracking id makes the status query
return status "sent", and a subsequent "delivered" status update for that id
makes the query return status "delivered" with the update payload as details. -/
theorem C4_record_update_get (phone id : String) (store : Store)
    (kvs : List (String × Json))
    (hnew : storeLookup store (Json.str id) = none)
    (hid : (Json.obj kvs).lookup "id" = some (Json.str id))
    (hst : (Json.obj kvs).lookup "status" = some (Json.str "delivered")) :
    get_message_status id
      (send_whatsapp_message phone
        (.ok ⟨200, "",
          .ok (Json.obj [("messages",
            Json.arr [Json.obj [("id", Json.str id)]])])⟩) store).2 =
      .ok ⟨phone, Json.str "sent", Json.obj []⟩ ∧
    get_message_status id
      (process_message_status_updates
        (Json.obj [("statuses", Json.arr [Json.obj kvs])])
        (send_whatsapp_message phone
          (.ok ⟨200, "",
            .ok (Json.obj [("messages",
              Json.arr [Json.obj [("id", Json.str id)]])])⟩) store).2).1 =
      .ok ⟨phone, Json.str "delivered", Json.obj kvs⟩ := by
  have hsend : (send_whatsapp_message phone
      (.ok ⟨200, "",
        .ok (Json.obj [("messages",
          Json.arr [Json.obj [("id", Json.str id)]])])⟩) store).2 =
      storeSet store (Json.str id) ⟨phone, Json.str "sent", Json.obj []⟩ := by
    simp [send_whatsapp_message, is2xx, extract_message_id, pyIn, pyGetItem,
      pyLen, pyIndex0, Json.lookup, hashableKey]
  rw [hsend]
  constructor
  · simp [get_message_status, storeLookup_set_self]
  · have hproc : process_message_status_updates
        (Json.obj [("statuses", Json.arr [Json.obj kvs])])
        (storeSet store (Json.str id) ⟨phone, Json.str "sent", Json.obj []⟩) =
        (storeSet (storeSet store (Json.str id) ⟨phone, Json.str "sent", Json.obj []⟩)
          (Json.str id) ⟨phone, Json.str "delivered", Json.obj kvs⟩, none) := by
      simp only [process_message_status_updates, pyIn, pyGetItem, pyIter,
        Json.lookup, List.any_cons, List.any_nil, List.find?_cons]
      simp only [show (("statuses" : String) == "statuses") = true from rfl,
        Bool.true_or, Option.map_some]
      simp [processStatuses, pyGet, hid, hst, storeContains, hashableKey,
        storeLookup_set_self]
    rw [hproc]
    simp [get_message_status, storeLookup_set_self]

/-- Witness for C4 at a concrete dispatch and delivered-status update. -/
theorem C4_record_update_get_witness :
    get_message_status "m1"
      (send_whatsapp_message "p"
        (.ok ⟨200, "",
          .ok (Json.obj [("messages",
            Json.arr [Json.obj [("id", Json.str "m1")]])])⟩) []).2 =
      .ok ⟨"p", Json.str "sent", Json.obj []⟩ ∧
    get_message_status "m1"
      (process_message_status_updates
        (Json.obj [("statuses",
          Json.arr [Json.obj [("id", Json.str "m1"),
                              ("status", Json.str "delivered")]])])
        (send_whatsapp_message "p"
          (.ok ⟨200, "",
            .ok (Json.obj [("messages",
              Json.arr [Json.obj [("id", Json.str "m1")]])])⟩) []).2).1 =
      .ok ⟨"p", Json.str "delivered",
        Json.obj [("id", Json.str "m1"), ("status", Json.str "delivered")]⟩ :=
  C4_record_update_get "p" "m1" []
    [("id", Json.str "m1"), ("status", Json.str "delivered")] rfl rfl rfl

/-- C9: a provider error response fails with that status code and the provider
error body, a network failure or unparsable 2xx body fails with a generic 500,
and in each failure case the status store is unchanged. -/
theorem C9_dispatch_failures (phone msg : String) (r : ProviderResponse)
    (store : Store) :
    (send_whatsapp_message phone (.error msg) store =
      (.httpError 500 ("Failed to send WhatsApp message: " ++ msg), store)) ∧
    (is2xx r.status = false →
      send_whatsapp_message phone (.ok r) store =
        (.httpError r.status ("WhatsApp API error: " ++ r.text), store)) ∧
    (is2xx r.status = true → r.body = .error msg →
      send_whatsapp_message phone (.ok r) store =
        (.httpError 500 ("Failed to send WhatsApp message: " ++ msg), store)) := by
  refine ⟨rfl, ?_, ?_⟩
  · intro h
    simp [send_whatsapp_message, h]
  · intro h hb
    simp [send_whatsapp_message, h, hb]

/-- Witness for C9 at a network failure, a 404 provider error, and a 2xx
response with an unparsable body. -/
theorem C9_dispatch_failures_witness :
    (send_whatsapp_message "p" (.error "connect timeout") [] =
      (.httpError 500 "Failed to send WhatsApp message: connect timeout", [])) ∧
    (send_whatsapp_message "p" (.ok ⟨404, "not found", .ok Json.null⟩) [] =
      (.httpError 404 "WhatsApp API error: not found", [])) ∧
    (send_whatsapp_message "p" (.ok ⟨200, "x", .error "bad json"⟩) [] =
      (.httpError 500 "Failed to send WhatsApp message: bad json", [])) :=
  ⟨(C9_dispatch_failures "p" "connect timeout" ⟨404, "not found", .ok Json.null⟩ []).1,
   (C9_dispatch_failures "p" "x" ⟨404, "not found", .ok Json.null⟩ []).2.1 (by decide),
   (C9_dispatch_failures "p" "bad json" ⟨200, "x", .error "bad json"⟩ []).2.2
     (by decide) rfl⟩

/-- Helper: the key-membership test of an object agrees with lookup success. -/
theorem obj_any_iff_lookup (kvs : List (String × Json)) (k : String) :
    kvs.any (fun kv => kv.1 == k) = ((Json.obj kvs).lookup k).isSome := by
  simp only [Json.lookup, Option.isSome_map]
  rw [Bool.eq_iff_iff]
  simp [List.any_eq_true, List.find?_isSome]

/-- Helper: the status-update section of the webhook endpoint only returns
the received acknowledgement or a 500 conversion of a caught exception. -/
theorem webhookStatusSection_cases (body : Json) (store : Store) :
    (webhookStatusSection body store).1 =
        .ok (Json.obj [("status", Json.str "received")]) ∨
    ∃ e, (webhookStatusSection body store).1 =
        .httpError 500 ("Failed to process webhook: " ++ e) := by
  rcases hb : webhookTryBlock body store with ⟨store1, oe⟩
  cases oe with
  | none => left; simp [webhookStatusSection, hb]
  | some e => right; exact ⟨e, by simp [webhookStatusSection, hb]⟩

/-- C2 counterexample: a verified webhook request with malformed JSON, and one
whose handshake body lacks hub.verify_token, both raise exceptions that
escape the handler uncaught instead of being converted to the 500
"Failed to process webhook" error. -/
theorem C2_uncaught_counterexample :
    (whatsapp_webhook none "T" []).1 =
      .uncaught "JSONDecodeError: Expecting value" ∧
    (whatsapp_webhook (some (Json.obj [("hub.mode", Json.str "subscribe")]))
        "T" []).1 =
      .uncaught "KeyError: hub.verify_token" :=
  ⟨rfl, rfl⟩

/-- C2 (amended): for a parsed object body that does not take the handshake
path, every exception raised during status-update processing is caught and
converted to a 500 "Failed to process webhook" error; the handler returns
either that error or the received acknowledgement, never an uncaught
exception. -/
theorem C2_amended_caught_in_try (kvs : List (String × Json)) (tok : String)
    (store : Store)
    (h : (Json.obj kvs).lookup "hub.mode" ≠ some (Json.str "subscribe")) :
    (whatsapp_webhook (some (Json.obj kvs)) tok store).1 =
        .ok (Json.obj [("status", Json.str "received")]) ∨
    ∃ e, (whatsapp_webhook (some (Json.obj kvs)) tok store).1 =
        .httpError 500 ("Failed to process webhook: " ++ e) := by
  simp only [whatsapp_webhook, pyIn, obj_any_iff_lookup]
  cases hl : (Json.obj kvs).lookup "hub.mode" with
  | none =>
    simp only [hl, Option.isSome_none, Bool.false_eq_true, if_false]
    exact webhookStatusSection_cases (Json.obj kvs) store
  | some v =>
    have hv : v ≠ Json.str "subscribe" := fun hc => h (hc ▸ hl)
    simp only [hl, Option.isSome_some, if_true, pyGetItem, if_neg hv]
    exact webhookStatusSection_cases (Json.obj kvs) store

/-- Witness for the amended C2 at a body whose entry list is malformed
(triggering a caught TypeError) under the non-handshake hypothesis. -/
theorem C2_amended_caught_in_try_witness :
    (whatsapp_webhook (some (Json.obj [("entry", Json.num 5)])) "T" []).1 =
        .ok (Json.obj [("status", Json.str "received")]) ∨
    ∃ e, (whatsapp_webhook (some (Json.obj [("entry", Json.num 5)])) "T" []).1 =
        .httpError 500 ("Failed to process webhook: " ++ e) :=
  C2_amended_caught_in_try [("entry", Json.num 5)] "T" [] (by decide)

/-- Helper: the status loop never adds or removes store keys. -/
theorem processStatuses_keys : ∀ (statuses : List Json) (store : Store),
    storeKeys (processStatuses statuses store).1 = storeKeys store := by
  intro statuses
  induction statuses with
  | nil => intro store; rfl
  | cons s rest ih =>
    intro store
    simp only [processStatuses]
    cases hg : pyGet s "id" Json.null with
    | error e => rfl
    | ok mid =>
      dsimp only
      cases hc : storeContains store mid with
      | error e => rfl
      | ok b =>
        cases b with
        | false => exact ih store
        | true =>
          dsimp only
          cases hs : pyGet s "status" Json.null with
          | error e => rfl
          | ok newStatus =>
            cases hl : storeLookup store mid with
            | none => exact ih store
            | some r =>
              dsimp only
              rw [ih (storeSet store mid { r with status := newStatus, details := s })]
              exact storeKeys_set_of_mem store mid _ (by rw [hl]; rfl)

/-- Helper: status-update processing never adds or removes store keys. -/
theorem process_message_status_updates_keys (data : Json) (store : Store) :
    storeKeys (process_message_status_updates data store).1 = storeKeys store := by
  simp only [process_message_status_updates]
  cases pyIn "statuses" data with
  | error e => rfl
  | ok b =>
    cases b with
    | false => rfl
    | true =>
      dsimp only
      cases pyGetItem data "statuses" with
      | error e => rfl
      | ok sts =>
        dsimp only
        cases pyIter sts with
        | error e => rfl
        | ok list => exact processStatuses_keys list store

/-- Helper: the change loop never adds or removes store keys. -/
theorem processChanges_keys : ∀ (cs : List Json) (store : Store),
    storeKeys (processChanges cs store).1 = storeKeys store := by
  intro cs
  induction cs with
  | nil => intro store; rfl
  | cons change rest ih =>
    intro store
    simp only [processChanges]
    cases pyGet change "field" Json.null with
    | error e => rfl
    | ok f =>
      dsimp only
      by_cases hf : f = Json.str "messages"
      · rw [if_pos hf]
        cases pyGet change "value" (Json.obj []) with
        | error e => rfl
        | ok v =>
          dsimp only
          rcases hp : process_message_status_updates v store with ⟨store1, oe⟩
          have h1 : storeKeys store1 = storeKeys store := by
            have := process_message_status_updates_keys v store
            rw [hp] at this
            exact this
          cases oe with
          | none => simpa [h1] using ih store1
          | some e => simpa using h1
      · rw [if_neg hf]
        exact ih store

/-- Helper: the entry loop never adds or removes store keys. -/
theorem processEntries_keys : ∀ (es : List Json) (store : Store),
    storeKeys (processEntries es store).1 = storeKeys store := by
  intro es
  induction es with
  | nil => intro store; rfl
  | cons entry rest ih =>
    intro store
    simp only [processEntries]
    cases pyGet entry "changes" (Json.arr []) with
    | error e => rfl
    | ok chs =>
      dsimp only
      cases pyIter chs with
      | error e => rfl
      | ok cs =>
        dsimp only
        rcases hp : processChanges cs store with ⟨store1, oe⟩
        have h1 : storeKeys store1 = storeKeys store := by
          have := processChanges_keys cs store
          rw [hp] at this
          exact this
        cases oe with
        | none => simpa [h1] using ih store1
        | some e => simpa using h1

/-- Helper: the webhook try-block never adds or removes store keys. -/
theorem webhookTryBlock_keys (body : Json) (store : Store) :
    storeKeys (webhookTryBlock body store).1 = storeKeys store := by
  simp only [webhookTryBlock]
  cases pyIn "entry" body with
  | error e => rfl
  | ok b =>
    cases b with
    | false => rfl
    | true =>
      dsimp only
      cases pyGetItem body "entry" with
      | error e => rfl
      | ok entries =>
        dsimp only
        cases pyIter entries with
        | error e => rfl
        | ok es => exact processEntries_keys es store

/-- Helper: the status-update section never adds or removes store keys. -/
theorem webhookStatusSection_keys (body : Json) (store : Store) :
    storeKeys (webhookStatusSection body store).2 = storeKeys store := by
  simp only [webhookStatusSection]
  rcases htb : webhookTryBlock body store with ⟨s1, oe⟩
  have h1 : storeKeys s1 = storeKeys store := by
    have := webhookTryBlock_keys body store
    rw [htb] at this
    exact this
  cases oe with
  | none => simpa using h1
  | some e => simpa using h1

/-- Helper: the webhook endpoint never adds or removes store keys. -/
theorem whatsapp_webhook_keys (parsed : Option Json) (tok : String)
    (store : Store) :
    storeKeys (whatsapp_webhook parsed tok store).2 = storeKeys store := by
  cases parsed with
  | none => rfl
  | some body =>
    simp only [whatsapp_webhook]
    cases pyIn "hub.mode" body with
    | error e => rfl
    | ok hasMode =>
      cases hasMode with
      | false => exact webhookStatusSection_keys body store
      | true =>
        dsimp only
        cases pyGetItem body "hub.mode" with
        | error e => rfl
        | ok mode =>
          dsimp only
          by_cases hm : mode = Json.str "subscribe"
          · rw [if_pos hm]
            cases pyGetItem body "hub.verify_token" with
            | error e => rfl
            | ok vt =>
              dsimp only
              by_cases ht : vt = Json.str tok
              · rw [if_pos ht]
                cases pyGetItem body "hub.challenge" with
                | error e => rfl
                | ok c => rfl
              · rw [if_neg ht]
                rfl
          · rw [if_neg hm]
            exact webhookStatusSection_keys body store

/-- Helper: a dispatch adds at most the tracking id it successfully extracted. -/
theorem send_keys (phone : String) (resp : Except String ProviderResponse)
    (store : Store) (k : Json)
    (h : k ∈ storeKeys (send_whatsapp_message phone resp store).2) :
    k ∈ storeKeys store ∨ some k = dispatchedId resp := by
  cases resp with
  | error e => exact Or.inl h
  | ok r =>
    by_cases h2 : is2xx r.status = true
    · simp only [send_whatsapp_message, h2, if_true] at h
      cases hb : r.body with
      | error e =>
        rw [hb] at h
        exact Or.inl h
      | ok result =>
        rw [hb] at h
        try dsimp only at h
        cases hx : extract_message_id result with
        | error e =>
          rw [hx] at h
          exact Or.inl h
        | ok o =>
          rw [hx] at h
          cases o with
          | none => exact Or.inl h
          | some mid =>
            dsimp only at h
            by_cases hh : hashableKey mid = true
            · rw [if_pos hh] at h
              rcases storeKeys_set_subset store mid k _ h with h3 | h3
              · right
                simp [dispatchedId, h2, hb, hx, hh, h3]
              · exact Or.inl h3
            · rw [if_neg hh] at h
              exact Or.inl h
    · simp only [send_whatsapp_message] at h
      rw [if_neg (by simpa using h2)] at h
      exact Or.inl h

/-- Helper: every key of the store reached from a given store comes from that
store or from a successful dispatch among the events. -/
theorem runEvents_keys_aux : ∀ (evs : List Event) (store : Store) (k : Json),
    k ∈ storeKeys (List.foldl stepStore store evs) →
    k ∈ storeKeys store ∨ k ∈ dispatchIds evs := by
  intro evs
  induction evs with
  | nil => intro store k h; exact Or.inl h
  | cons ev rest ih =>
    intro store k h
    rw [List.foldl_cons] at h
    rcases ih (stepStore store ev) k h with h1 | h1
    · cases ev with
      | dispatch phone resp =>
        rcases send_keys phone resp store k h1 with h2 | h2
        · exact Or.inl h2
        · right
          simp [dispatchIds, ← h2]
      | webhook parsed tok =>
        left
        rw [← whatsapp_webhook_keys parsed tok store]
        exact h1
    · right
      cases ev with
      | dispatch phone resp =>
        simp only [dispatchIds]
        cases dispatchedId resp with
        | none => exact h1
        | some mid => exact List.mem_cons_of_mem mid h1
      | webhook parsed tok => exact h1

/-- C8: every key of the status store reachable by any event sequence was
registered by a successful dispatch, and webhook processing never adds a key
to the store. -/
theorem C8_keys_from_dispatch :
    (∀ (evs : List Event) (k : Json),
      k ∈ storeKeys (runEvents evs) → k ∈ dispatchIds evs) ∧
    (∀ (parsed : Option Json) (tok : String) (store : Store),
      storeKeys (whatsapp_webhook parsed tok store).2 = storeKeys store) := by
  constructor
  · intro evs k h
    rcases runEvents_keys_aux evs [] k h with h1 | h1
    · simp [storeKeys] at h1
    · exact h1
  · exact whatsapp_webhook_keys

/-- Witness for C8 at a concrete dispatch event and a webhook event. -/
theorem C8_keys_from_dispatch_witness :
    Json.str "m1" ∈ dispatchIds
      [Event.dispatch "p" (.ok ⟨200, "",
        .ok (Json.obj [("messages",
          Json.arr [Json.obj [("id", Json.str "m1")]])])⟩)] ∧
    storeKeys (whatsapp_webhook none "T"
      [(Json.str "a", ⟨"p", Json.str "sent", Json.obj []⟩)]).2 =
      storeKeys [(Json.str "a", ⟨"p", Json.str "sent", Json.obj []⟩)] :=
  ⟨C8_keys_from_dispatch.1
      [Event.dispatch "p" (.ok ⟨200, "",
        .ok (Json.obj [("messages",
          Json.arr [Json.obj [("id", Json.str "m1")]])])⟩)]
      (Json.str "m1") (by decide),
   C8_keys_from_dispatch.2 none "T"
      [(Json.str "a", ⟨"p", Json.str "sent", Json.obj []⟩)]⟩

end WaPoc
